import Mathlib

/-!
Verification of the AccessAid application's state-store and screen logic.

The definitions below are a shallow embedding of the TypeScript sources:
the reducer and provider effects of the application context (`AppProvider`),
the authentication handlers of `LoginScreen.tsx`, the speech-rate
computations of the various screens, and the OCR size guards of
`HomeScreen.tsx`.  JavaScript numbers that matter here (brightness,
text zoom, voice speed, speech rates) are modelled as rationals; JS
`Date` values carried inside reminders are opaque to all verified logic
and are modelled as integers (epoch milliseconds).
-/

/-- `User` from `src/types/index.ts`: identity record with optional
profile fields (`joinDate?`, `bio?`, ... are optional in the source). -/
structure User where
  id : String
  email : String
  pin : String
  name : String
  joinDate : Option String := none
  bio : Option String := none
  weight : Option String := none
  height : Option String := none
  bloodGroup : Option String := none
  allergies : Option String := none
  interests : Option String := none
  profilePhoto : Option String := none
deriving DecidableEq, Repr

/-- `AccessibilitySettings` from `src/types/index.ts`. -/
structure AccessibilitySettings where
  brightness : ℚ
  textZoom : ℚ
  voiceSpeed : ℚ
  isDarkMode : Bool
deriving DecidableEq, Repr

/-- `ReminderCategory` from `src/types/index.ts`. -/
inductive ReminderCategory
  | medication | doctor | therapy | exercise | personal | emergency
deriving DecidableEq, Repr

/-- `ReminderPriority` from `src/types/index.ts`. -/
inductive ReminderPriority
  | low | medium | high | emergency
deriving DecidableEq, Repr

/-- `ReminderRecurrence` from `src/types/index.ts`. -/
inductive ReminderRecurrence
  | once | daily | weekly | monthly
deriving DecidableEq, Repr

/-- `Reminder` from `src/types/index.ts`; `Date` fields are opaque
epoch-millisecond integers. -/
structure Reminder where
  id : String
  title : String
  description : Option String := none
  date : Int
  time : Int
  isCompleted : Bool
  isActive : Bool
  createdAt : Int
  updatedAt : Int
  category : Option ReminderCategory := none
  priority : Option ReminderPriority := none
  recurrence : Option ReminderRecurrence := none
deriving DecidableEq, Repr

/-- `AppState` from the application context (`AppProvider` source file). -/
structure AppState where
  user : Option User
  isLoggedIn : Bool
  hasCompletedSetup : Bool
  accessibilitySettings : AccessibilitySettings
  isVoiceEnabled : Bool
  voiceAnnouncementsEnabled : Bool
  reminders : List Reminder
deriving DecidableEq, Repr

/-- `Partial<User>` payload of the `UPDATE_USER` action: every field
optional; for source-optional fields a present entry may itself clear the
field, hence the doubled `Option`. -/
structure UserPatch where
  id : Option String := none
  email : Option String := none
  pin : Option String := none
  name : Option String := none
  joinDate : Option (Option String) := none
  bio : Option (Option String) := none
  weight : Option (Option String) := none
  height : Option (Option String) := none
  bloodGroup : Option (Option String) := none
  allergies : Option (Option String) := none
  interests : Option (Option String) := none
  profilePhoto : Option (Option String) := none
deriving DecidableEq, Repr

/-- `Partial<AccessibilitySettings>` payload of
`UPDATE_ACCESSIBILITY_SETTINGS`. -/
structure AccessibilitySettingsPatch where
  brightness : Option ℚ := none
  textZoom : Option ℚ := none
  voiceSpeed : Option ℚ := none
  isDarkMode : Option Bool := none
deriving DecidableEq, Repr

/-- `Partial<AppState>` payload of `LOAD_DATA`. -/
structure AppStatePatch where
  user : Option (Option User) := none
  isLoggedIn : Option Bool := none
  hasCompletedSetup : Option Bool := none
  accessibilitySettings : Option AccessibilitySettings := none
  isVoiceEnabled : Option Bool := none
  voiceAnnouncementsEnabled : Option Bool := none
  reminders : Option (List Reminder) := none
deriving DecidableEq, Repr

/-- JS object spread `{...u, ...p}` for a `Partial<User>` payload. -/
def mergeUser (u : User) (p : UserPatch) : User :=
  { id := p.id.getD u.id
    email := p.email.getD u.email
    pin := p.pin.getD u.pin
    name := p.name.getD u.name
    joinDate := p.joinDate.getD u.joinDate
    bio := p.bio.getD u.bio
    weight := p.weight.getD u.weight
    height := p.height.getD u.height
    bloodGroup := p.bloodGroup.getD u.bloodGroup
    allergies := p.allergies.getD u.allergies
    interests := p.interests.getD u.interests
    profilePhoto := p.profilePhoto.getD u.profilePhoto }

/-- JS object spread `{...s, ...p}` for a `Partial<AccessibilitySettings>`
payload. -/
def mergeSettings (s : AccessibilitySettings) (p : AccessibilitySettingsPatch) :
    AccessibilitySettings :=
  { brightness := p.brightness.getD s.brightness
    textZoom := p.textZoom.getD s.textZoom
    voiceSpeed := p.voiceSpeed.getD s.voiceSpeed
    isDarkMode := p.isDarkMode.getD s.isDarkMode }

/-- JS object spread `{...state, ...p}` for a `Partial<AppState>` payload. -/
def mergeAppState (s : AppState) (p : AppStatePatch) : AppState :=
  { user := p.user.getD s.user
    isLoggedIn := p.isLoggedIn.getD s.isLoggedIn
    hasCompletedSetup := p.hasCompletedSetup.getD s.hasCompletedSetup
    accessibilitySettings := p.accessibilitySettings.getD s.accessibilitySettings
    isVoiceEnabled := p.isVoiceEnabled.getD s.isVoiceEnabled
    voiceAnnouncementsEnabled := p.voiceAnnouncementsEnabled.getD s.voiceAnnouncementsEnabled
    reminders := p.reminders.getD s.reminders }

/-- `AppAction` from the application context source file. -/
inductive AppAction
  | login (payload : User)
  | updateUser (payload : UserPatch)
  | logout
  | completeSetup
  | updateAccessibilitySettings (payload : AccessibilitySettingsPatch)
  | toggleVoice (payload : Bool)
  | toggleVoiceAnnouncements (payload : Bool)
  | addReminder (payload : Reminder)
  | updateReminder (payload : Reminder)
  | deleteReminder (payload : String)
  | toggleReminder (payload : String)
  | loadData (payload : AppStatePatch)
  | setReminders (payload : List Reminder)
deriving DecidableEq, Repr

/-- `initialState` from the application context source file. -/
def initialState : AppState :=
  { user := none
    isLoggedIn := false
    hasCompletedSetup := false
    accessibilitySettings :=
      { brightness := 50
        textZoom := 100
        voiceSpeed := 1
        isDarkMode := false }
    isVoiceEnabled := false
    voiceAnnouncementsEnabled := true
    reminders := [] }

/-- `appReducer` from the application context source file, case by case.
The `console.log` calls in the `ADD_REMINDER` case are pure logging and
have no state effect. -/
def appReducer (state : AppState) (action : AppAction) : AppState :=
  match action with
  | .login payload => { state with user := some payload, isLoggedIn := true }
  | .updateUser payload =>
      { state with
          user := match state.user with
            | some u => some (mergeUser u payload)
            | none => none }
  | .logout => initialState
  | .completeSetup => { state with hasCompletedSetup := true }
  | .updateAccessibilitySettings payload =>
      { state with
          accessibilitySettings := mergeSettings state.accessibilitySettings payload }
  | .toggleVoice payload => { state with isVoiceEnabled := payload }
  | .toggleVoiceAnnouncements payload =>
      { state with voiceAnnouncementsEnabled := payload }
  | .addReminder payload =>
      { state with reminders := state.reminders ++ [payload] }
  | .updateReminder payload =>
      { state with
          reminders := state.reminders.map fun reminder =>
            if reminder.id = payload.id then payload else reminder }
  | .deleteReminder payload =>
      { state with
          reminders := state.reminders.filter fun reminder => reminder.id ≠ payload }
  | .toggleReminder payload =>
      { state with
          reminders := state.reminders.map fun reminder =>
            if reminder.id = payload
            then { reminder with isCompleted := !reminder.isCompleted }
            else reminder }
  | .loadData payload => mergeAppState state payload
  | .setReminders payload => { state with reminders := payload }

/-- Splits a character list at every occurrence of `sep` (the semantics of
`String.split` on a single-character separator, executable by the kernel). -/
def splitChar (sep : Char) : List Char → List (List Char)
  | [] => [[]]
  | c :: rest =>
    let r := splitChar sep rest
    if c = sep then [] :: r
    else match r with
      | [] => [[c]]
      | h :: t => (c :: h) :: t

/-- `email.toLowerCase().trim()` as used by both `handleLogin` and
`handleSignUp` in `LoginScreen.tsx` to case-normalize emails. -/
def normalizeEmail (e : String) : String :=
  String.mk ((((e.data.map Char.toLower).dropWhile Char.isWhitespace).reverse.dropWhile
    Char.isWhitespace).reverse)

/-- A character admitted by the `[^\s@]` character class of the email
regex in `LoginScreen.tsx`. -/
def validEmailChar (c : Char) : Bool :=
  !c.isWhitespace && c != '@'

/-- `validateEmail` from `LoginScreen.tsx`: the regex
`^[^\s@]+@[^\s@]+\.[^\s@]+$` — a nonempty local part, one `@`, and a
domain containing a dot with at least one admitted character on each
side. -/
def validateEmail (email : String) : Bool :=
  match splitChar '@' email.data with
  | [lp, dom] =>
      !lp.isEmpty && lp.all validEmailChar && dom.all validEmailChar &&
      ((dom.drop 1).dropLast.contains '.')
  | _ => false

/-- `validatePin` from `LoginScreen.tsx`: the regex `^\d{4}$`. -/
def validatePin (pin : String) : Bool :=
  pin.data.length == 4 && pin.data.all Char.isDigit

/-- JS truthiness of an optional string (`undefined` and `""` are falsy),
used by the `joinDate` checks in `LoginScreen.tsx` and the provider. -/
def jsTruthy (o : Option String) : Bool :=
  match o with
  | none => false
  | some t => t != ""

/-- The `joinDate` repair shared by the provider's `loadData` effect and
`handleLogin`: `u.joinDate ? u : { ...u, joinDate: now }`. -/
def repairJoinDate (u : User) (now : String) : User :=
  if jsTruthy u.joinDate then u else { u with joinDate := some now }

/-- Outcome of an authentication handler in `LoginScreen.tsx`: the users
directory after the attempt, the application state after the attempt, and
whether a `LOGIN` action was dispatched. -/
structure AuthResult where
  users : List User
  state : AppState
  loggedIn : Bool
deriving DecidableEq, Repr

/-- `handleLogin` from `LoginScreen.tsx`: validation, directory lookup by
case-normalized email, PIN comparison, `joinDate` repair persisted into
the directory when missing, then a `LOGIN` dispatch.  Every early-return
branch leaves the directory and state untouched. -/
def handleLogin (email pin now : String) (users : List User) (s : AppState) : AuthResult :=
  if !validateEmail email then ⟨users, s, false⟩
  else if !validatePin pin then ⟨users, s, false⟩
  else
    match users.find? fun u => u.email == normalizeEmail email with
    | none => ⟨users, s, false⟩
    | some found =>
      if found.pin != pin then ⟨users, s, false⟩
      else
        let updatedUser := repairJoinDate found now
        let users' :=
          if jsTruthy found.joinDate then users
          else users.map fun u => if u.email == updatedUser.email then updatedUser else u
        ⟨users', appReducer s (.login updatedUser), true⟩

/-- `handleSignUp` from `LoginScreen.tsx`: validation, duplicate-email
check against the directory, then creation of the new user (id from the
clock, case-normalized email, trimmed name — and no `joinDate`),
prepended to the directory, followed by a `LOGIN` dispatch. -/
def handleSignUp (email pin name nowId : String) (users : List User) (s : AppState) :
    AuthResult :=
  if !validateEmail email then ⟨users, s, false⟩
  else if !validatePin pin then ⟨users, s, false⟩
  else if String.mk (((name.data.dropWhile Char.isWhitespace).reverse.dropWhile
      Char.isWhitespace).reverse) == "" then ⟨users, s, false⟩
  else if users.any fun u => u.email == normalizeEmail email then ⟨users, s, false⟩
  else
    let newUser : User :=
      { id := nowId
        email := normalizeEmail email
        pin := pin
        name := String.mk (((name.data.dropWhile Char.isWhitespace).reverse.dropWhile
          Char.isWhitespace).reverse) }
    ⟨newUser :: users, appReducer s (.login newUser), true⟩

/-- Storage key `reminders_<userId>` of the persistent key-value store. -/
def remindersKey (id : String) : String := "reminders_" ++ id

/-- The provider's `loadUserReminders` effect: with no user it dispatches
`SET_REMINDERS []`; with a user it reads `reminders_<id>` and dispatches
the parsed list, or `[]` when the key is absent.  The JSON/date revival
is modelled by letting the store hold reminder lists directly. -/
def loadUserReminders (user : Option User) (storage : String → Option (List Reminder)) :
    List Reminder :=
  match user with
  | none => []
  | some u => (storage (remindersKey u.id)).getD []

/-- A persisted slice as the provider's `loadData` effect sees it: the key
may be absent, hold JSON that fails to parse, or parse to a value. -/
inductive Persisted (α : Type)
  | absent
  | malformed
  | stored (a : α)
deriving DecidableEq, Repr

/-- The tail of the provider's `loadData` effect: the `hasCompletedSetup`
slice, dispatched via `LOAD_DATA` when present; a parse failure here is
caught by the single surrounding guard with nothing left to do. -/
def applySetupSlice (setupSlice : Persisted Bool) (s : AppState) : AppState :=
  match setupSlice with
  | .absent => s
  | .malformed => s
  | .stored b => appReducer s (.loadData { hasCompletedSetup := some b })

/-- The settings-then-setup tail of the provider's `loadData` effect; a
parse failure on the settings slice jumps to the surrounding catch, so the
setup slice is never processed. -/
def applySettingsSlice (settingsSlice : Persisted AccessibilitySettingsPatch)
    (setupSlice : Persisted Bool) (s : AppState) : AppState :=
  match settingsSlice with
  | .malformed => s
  | .absent => applySetupSlice setupSlice s
  | .stored p => applySetupSlice setupSlice (appReducer s (.updateAccessibilitySettings p))

/-- The provider's `loadData` rehydration effect: one `try`/`catch` wraps
the sequential processing of the `user`, `accessibilitySettings` and
`hasCompletedSetup` slices, so a parse failure aborts everything after it;
a present user is `joinDate`-repaired and dispatched via `LOGIN`. -/
def loadDataEffect (userSlice : Persisted User)
    (settingsSlice : Persisted AccessibilitySettingsPatch)
    (setupSlice : Persisted Bool) (now : String) (s : AppState) : AppState :=
  match userSlice with
  | .malformed => s
  | .absent => applySettingsSlice settingsSlice setupSlice s
  | .stored u =>
      applySettingsSlice settingsSlice setupSlice
        (appReducer s (.login (repairJoinDate u now)))

/-- `Math.max(0.5, Math.min(v, 2.0))` — the `safeRate` clamp used before
the `Speech.speak` calls in `LoginScreen.tsx`, `HomeScreen.tsx` and
`ProfileScreen.tsx`. -/
def clampRate (v : ℚ) : ℚ := max (1 / 2) (min v 2)

/-- Rate handed to `Speech.speak` by `speakText` in `LoginScreen.tsx`. -/
def loginScreenSpeakRate (s : AppState) : ℚ :=
  clampRate s.accessibilitySettings.voiceSpeed

/-- Rate handed to `Speech.speak` by `speakText` in `HomeScreen.tsx`. -/
def homeScreenSpeakTextRate (s : AppState) : ℚ :=
  clampRate s.accessibilitySettings.voiceSpeed

/-- Rate handed to `Speech.speak` by `speakText` in `ProfileScreen.tsx`. -/
def profileScreenSpeakRate (s : AppState) : ℚ :=
  clampRate s.accessibilitySettings.voiceSpeed

/-- Rate handed to `Speech.speak` by the welcome-message effect of
`AccessibilitySetupScreen.tsx`: the stored `voiceSpeed`, with no clamp. -/
def setupScreenWelcomeRate (s : AppState) : ℚ :=
  s.accessibilitySettings.voiceSpeed

/-- Rate used by `speakDirect` in `HomeScreen.tsx` when the caller passes
no options: the fixed default `1.0`. -/
def homeScreenSpeakDirectDefaultRate : ℚ := 1

/-- The OCR size ceiling `1024 * 1024` from `HomeScreen.tsx`. -/
def BYTE_LIMIT : ℕ := 1024 * 1024

/-- Length of the (padded) base64 encoding of `n` bytes. -/
def base64Length (n : ℕ) : ℕ := 4 * ((n + 2) / 3)

/-- `fileToBase64` from `HomeScreen.tsx`, abstracted to sizes: a file
whose byte size exceeds the ceiling is rejected before encoding;
otherwise the whole file is base64-encoded and the resulting string
length is returned. -/
def fileToBase64 (size : ℕ) : Except String ℕ :=
  if size > BYTE_LIMIT then
    .error "File size exceeds 1 MB limit. Please choose a smaller file."
  else
    .ok (base64Length size)

/-- `prepareImageForOCR` from `HomeScreen.tsx`, abstracted to the length
of the base64 string produced by the (external) resize/compress step: the
code estimates the decoded byte size as `base64.length * 3 / 4` and
rejects when that estimate exceeds the ceiling, otherwise it returns the
base64 payload unchanged. -/
def prepareImageForOCR (b64len : ℕ) : Except String ℕ :=
  if ((b64len * 3 : ℚ) / 4) > (BYTE_LIMIT : ℚ) then
    .error "Image is still larger than 1 MB. Please choose a smaller image."
  else
    .ok b64len

/- ### Concrete fixtures used by counterexamples and witnesses -/

/-- A first user, persisted owner of `reminderA`. -/
def userA : User := { id := "A1", email := "alice@mail.com", pin := "1111", name := "Alice" }

/-- A second user with no persisted reminders. -/
def userB : User := { id := "B2", email := "bob@mail.com", pin := "2222", name := "Bob" }

/-- A reminder persisted under `userA`'s key. -/
def reminderA : Reminder :=
  { id := "rA", title := "take medication", date := 0, time := 0,
    isCompleted := false, isActive := true, createdAt := 0, updatedAt := 0 }

/-- A reminder store where `userA` owns `[reminderA]` and nothing else is
persisted. -/
def storageAB : String → Option (List Reminder) :=
  fun k => if k = remindersKey "A1" then some [reminderA] else none

/-- State reached by the actual dispatch sequence `LOGIN(userA)`, then
the loader effect's `SET_REMINDERS` for `userA`, then `LOGIN(userB)` —
the moment just before the loader effect for `userB` has dispatched. -/
def stateAfterSwitch : AppState :=
  appReducer
    (appReducer (appReducer initialState (.login userA))
      (.setReminders (loadUserReminders (some userA) storageAB)))
    (.login userB)

/- ### C3 -/

/-- C3: dispatching `LOGOUT` from any state returns exactly the documented
initial defaults: no user, not logged in, setup not completed, brightness
50, textZoom 100, voiceSpeed 1.0, dark mode off, voice disabled, voice
announcements enabled, empty reminder list. -/
theorem logout_resets_to_initial_defaults (s : AppState) :
    appReducer s .logout = initialState ∧
    initialState.user = none ∧
    initialState.isLoggedIn = false ∧
    initialState.hasCompletedSetup = false ∧
    initialState.accessibilitySettings.brightness = 50 ∧
    initialState.accessibilitySettings.textZoom = 100 ∧
    initialState.accessibilitySettings.voiceSpeed = 1 ∧
    initialState.accessibilitySettings.isDarkMode = false ∧
    initialState.isVoiceEnabled = false ∧
    initialState.voiceAnnouncementsEnabled = true ∧
    initialState.reminders = [] :=
  ⟨rfl, rfl, rfl, rfl, rfl, rfl, rfl, rfl, rfl, rfl, rfl⟩

/- ### C10 -/

/-- C10: in the pure reducer, `LOGIN(u)` changes only the `user` and
`isLoggedIn` fields; all other fields, in particular the reminder list,
are unchanged, and the list is only replaced by a subsequent
`SET_REMINDERS`. -/
theorem login_changes_only_user_and_login_flag (s : AppState) (u : User)
    (l : List Reminder) :
    (appReducer s (.login u)).user = some u ∧
    (appReducer s (.login u)).isLoggedIn = true ∧
    (appReducer s (.login u)).reminders = s.reminders ∧
    (appReducer s (.login u)).hasCompletedSetup = s.hasCompletedSetup ∧
    (appReducer s (.login u)).accessibilitySettings = s.accessibilitySettings ∧
    (appReducer s (.login u)).isVoiceEnabled = s.isVoiceEnabled ∧
    (appReducer s (.login u)).voiceAnnouncementsEnabled = s.voiceAnnouncementsEnabled ∧
    (appReducer (appReducer s (.login u)) (.setReminders l)).reminders = l :=
  ⟨rfl, rfl, rfl, rfl, rfl, rfl, rfl, rfl⟩

/- ### C8 -/

/-- Replacing by id is the identity on a list containing no reminder with
that id. -/
theorem map_update_eq_self (l : List Reminder) (r : Reminder)
    (h : ∀ x ∈ l, x.id ≠ r.id) :
    (l.map fun x => if x.id = r.id then r else x) = l := by
  induction l with
  | nil => rfl
  | cons a t ih =>
    simp only [List.map_cons]
    rw [if_neg (h a (List.mem_cons_self a t)),
      ih fun x hx => h x (List.mem_cons_of_mem a hx)]

/-- C8: `UPDATE_REMINDER` with an id absent from the list is the identity
on the state; with the id present, the matching entries are replaced by
the payload and every other position (and the order and length) is
unchanged. -/
theorem update_reminder_replaces_matching_only (s : AppState) (r : Reminder) :
    ((∀ x ∈ s.reminders, x.id ≠ r.id) → appReducer s (.updateReminder r) = s) ∧
    (appReducer s (.updateReminder r)).reminders.length = s.reminders.length ∧
    (∀ (i : ℕ) (x : Reminder), s.reminders[i]? = some x →
      (appReducer s (.updateReminder r)).reminders[i]? =
        some (if x.id = r.id then r else x)) := by
  refine ⟨fun h => ?_, ?_, fun i x hx => ?_⟩
  · show ({ s with reminders := s.reminders.map fun x =>
      if x.id = r.id then r else x } : AppState) = s
    rw [map_update_eq_self s.reminders r h]
  · exact List.length_map _ _
  · show (s.reminders.map fun x => if x.id = r.id then r else x)[i]? = _
    rw [List.getElem?_map, hx]; rfl

/-- A second reminder id, absent from `[reminderA]`. -/
def reminderB : Reminder :=
  { id := "rB", title := "doctor visit", date := 1, time := 1,
    isCompleted := false, isActive := true, createdAt := 1, updatedAt := 1 }

/-- A state holding exactly `[reminderA]`. -/
def stateWithReminderA : AppState := { initialState with reminders := [reminderA] }

/-- Witness for C8 at a concrete state: updating with an absent id is the
identity. -/
theorem update_reminder_replaces_matching_only_witness :
    appReducer stateWithReminderA (.updateReminder reminderB) = stateWithReminderA ∧
    (appReducer stateWithReminderA (.updateReminder reminderB)).reminders.length =
      stateWithReminderA.reminders.length :=
  ⟨(update_reminder_replaces_matching_only stateWithReminderA reminderB).1 (by decide),
   (update_reminder_replaces_matching_only stateWithReminderA reminderB).2.1⟩

/- ### C1 -/

/-- C1 counterexample: along the real dispatch sequence `LOGIN(userA)`,
`SET_REMINDERS(userA's list)`, `LOGIN(userB)`, the state has `userB`
logged in while still holding `userA`'s reminder `[reminderA]`, which is
not `userB`'s persisted list (that list is empty) — so the switch is not
atomic and the state does expose `userA`'s reminders. -/
theorem login_switch_exposes_previous_users_reminders :
    stateAfterSwitch.user = some userB ∧
    stateAfterSwitch.reminders = [reminderA] ∧
    loadUserReminders stateAfterSwitch.user storageAB = [] ∧
    stateAfterSwitch.reminders ≠ loadUserReminders stateAfterSwitch.user storageAB := by
  refine ⟨rfl, by decide, by decide, by decide⟩

/-- C1 amended: `LOGIN` alone leaves the previous reminder list in state;
the list is scoped to the new user only once the loader effect's
subsequent `SET_REMINDERS` is dispatched, after which the state holds
exactly the new user's persisted list (or the empty list, also when no
user is logged in). -/
theorem login_then_set_reminders_scopes_list (s : AppState) (u : User)
    (storage : String → Option (List Reminder)) :
    (appReducer s (.login u)).reminders = s.reminders ∧
    (appReducer (appReducer s (.login u))
        (.setReminders (loadUserReminders (some u) storage))).user = some u ∧
    (appReducer (appReducer s (.login u))
        (.setReminders (loadUserReminders (some u) storage))).reminders =
      loadUserReminders (some u) storage ∧
    loadUserReminders none storage = [] :=
  ⟨rfl, rfl, rfl, rfl⟩

/- ### C2 -/

/-- State with a persisted out-of-range `voiceSpeed` of 5.0, as produced
by dispatching `UPDATE_ACCESSIBILITY_SETTINGS({voiceSpeed: 5.0})`. -/
def stateWithFastVoice : AppState :=
  appReducer initialState (.updateAccessibilitySettings { voiceSpeed := some 5 })

/-- C2 counterexample: with stored `voiceSpeed` 5.0, the welcome-message
`Speech.speak` of `AccessibilitySetupScreen.tsx` hands the engine rate
5.0, not the clamped 2.0 the claim requires at every speak site. -/
theorem setup_welcome_rate_unclamped_counterexample :
    stateWithFastVoice.accessibilitySettings.voiceSpeed = 5 ∧
    setupScreenWelcomeRate stateWithFastVoice = 5 ∧
    clampRate 5 = 2 ∧
    setupScreenWelcomeRate stateWithFastVoice ≠
      clampRate stateWithFastVoice.accessibilitySettings.voiceSpeed := by
  have hclamp : clampRate (5 : ℚ) = 2 := by
    unfold clampRate
    rw [min_eq_right (by norm_num : (2 : ℚ) ≤ 5), max_eq_right (by norm_num : (1 / 2 : ℚ) ≤ 2)]
  have hv : stateWithFastVoice.accessibilitySettings.voiceSpeed = 5 := by decide
  have hw : setupScreenWelcomeRate stateWithFastVoice = 5 := by decide
  refine ⟨hv, hw, hclamp, ?_⟩
  rw [hw, hv, hclamp]
  norm_num

/-- C2 amended: the speak sites that derive their rate from the stored
`voiceSpeed` (`speakText` in `LoginScreen.tsx`, `HomeScreen.tsx` and
`ProfileScreen.tsx`) clamp it to `[0.5, 2.0]` before every call; the
welcome message of `AccessibilitySetupScreen.tsx` is the exception and
hands the stored `voiceSpeed` to the engine unclamped, and the
option-less `speakDirect` path of `HomeScreen.tsx` uses the fixed
default rate 1.0 rather than the stored speed. -/
theorem speak_rate_clamp_per_site (s : AppState) :
    loginScreenSpeakRate s = clampRate s.accessibilitySettings.voiceSpeed ∧
    homeScreenSpeakTextRate s = clampRate s.accessibilitySettings.voiceSpeed ∧
    profileScreenSpeakRate s = clampRate s.accessibilitySettings.voiceSpeed ∧
    (1 / 2 : ℚ) ≤ loginScreenSpeakRate s ∧ loginScreenSpeakRate s ≤ 2 ∧
    (1 / 2 : ℚ) ≤ homeScreenSpeakTextRate s ∧ homeScreenSpeakTextRate s ≤ 2 ∧
    (1 / 2 : ℚ) ≤ profileScreenSpeakRate s ∧ profileScreenSpeakRate s ≤ 2 ∧
    setupScreenWelcomeRate s = s.accessibilitySettings.voiceSpeed ∧
    homeScreenSpeakDirectDefaultRate = 1 := by
  have hlow : ∀ v : ℚ, 1 / 2 ≤ clampRate v := fun v => le_max_left _ _
  have hhigh : ∀ v : ℚ, clampRate v ≤ 2 := fun v =>
    max_le (by norm_num) (min_le_right _ _)
  exact ⟨rfl, rfl, rfl, hlow _, hhigh _, hlow _, hhigh _, hlow _, hhigh _, rfl, rfl⟩

/- ### C5 -/

/-- C5: a sign-up attempt whose case-normalized email is already present
in the persisted users directory is rejected before any mutation: no
`LOGIN` is dispatched, the directory is not written, and both the state
and the directory are exactly as before. -/
theorem signup_duplicate_email_rejected (email pin name nowId : String)
    (users : List User) (s : AppState)
    (h : (users.any fun u => u.email == normalizeEmail email) = true) :
    handleSignUp email pin name nowId users s = ⟨users, s, false⟩ := by
  unfold handleSignUp
  split_ifs <;> rfl

/-- The persisted users directory used by the authentication witnesses. -/
def annUser : User := { id := "1", email := "ann@mail.com", pin := "1234", name := "Ann" }

/-- A one-entry users directory holding `annUser`. -/
def dirUsers : List User := [annUser]

/-- Witness for C5: signing up with `Ann@Mail.com` (already registered as
`ann@mail.com`) leaves the directory and state untouched and dispatches
no `LOGIN`. -/
theorem signup_duplicate_email_rejected_witness :
    handleSignUp "Ann@Mail.com" "5678" "Bob" "99" dirUsers initialState =
      ⟨dirUsers, initialState, false⟩ :=
  signup_duplicate_email_rejected "Ann@Mail.com" "5678" "Bob" "99" dirUsers initialState
    (by decide)

/- ### C6 -/

/-- C6: a login attempt that fails authentication — no directory entry for
the normalized email, or a stored PIN different from the entered one —
leaves everything unchanged: no `LOGIN` is dispatched, and the users
directory and the whole application state are exactly as before. -/
theorem failed_login_leaves_state_unchanged (email pin now : String)
    (users : List User) (s : AppState)
    (h : (users.find? fun u => u.email == normalizeEmail email) = none ∨
      ∃ found, (users.find? fun u => u.email == normalizeEmail email) = some found ∧
        found.pin ≠ pin) :
    handleLogin email pin now users s = ⟨users, s, false⟩ := by
  unfold handleLogin
  split_ifs with h1 h2
  · rfl
  · rfl
  · cases hf : users.find? fun u => u.email == normalizeEmail email with
    | none => rfl
    | some found =>
      rcases h with h | ⟨f, hf2, hpin⟩
      · rw [hf] at h; exact absurd h (by simp)
      · rw [hf] at hf2
        have hfe : found = f := by injection hf2
        subst hfe
        have hb : (found.pin != pin) = true := by
          simp only [bne_iff_ne, ne_eq]
          exact hpin
        simp [hb]

/-- Witness for C6: logging in as `ann@mail.com` with the wrong PIN
`9999` (stored PIN is `1234`) changes nothing. -/
theorem failed_login_leaves_state_unchanged_witness :
    handleLogin "ann@mail.com" "9999" "2026-10-12" dirUsers initialState =
      ⟨dirUsers, initialState, false⟩ :=
  failed_login_leaves_state_unchanged "ann@mail.com" "9999" "2026-10-12" dirUsers initialState
    (Or.inr ⟨annUser, by decide, by decide⟩)

/- ### C9 -/

/-- C9 counterexample: a successful sign-up dispatches `LOGIN` with a user
whose `joinDate` is absent, and prepends that same `joinDate`-less record
to the users directory — the join timestamp is not set at creation. -/
theorem signup_user_lacks_joindate :
    (handleSignUp "new@mail.com" "1234" "Ann" "17" [] initialState).loggedIn = true ∧
    ((handleSignUp "new@mail.com" "1234" "Ann" "17" [] initialState).state.user.map
      User.joinDate) = some none ∧
    ((handleSignUp "new@mail.com" "1234" "Ann" "17" [] initialState).users.map
      User.joinDate) = [none] := by
  refine ⟨by decide, by decide, by decide⟩

/-- C9 amended: the user record created at sign-up carries no `joinDate`;
the join timestamp is assigned only later, by the repair step shared by
the rehydration effect and `handleLogin`, which stamps the current time
onto any user lacking one (and the callers persist that correction). -/
theorem signup_joindate_assigned_on_repair (email pin name nowId now : String)
    (users : List User) (s : AppState) (u : User)
    (h : (handleSignUp email pin name nowId users s).loggedIn = true)
    (hu : u.joinDate = none) :
    ((handleSignUp email pin name nowId users s).state.user.map User.joinDate) =
      some none ∧
    (repairJoinDate u now).joinDate = some now := by
  constructor
  · unfold handleSignUp at h ⊢
    split_ifs at h ⊢
    rfl
  · unfold repairJoinDate jsTruthy
    rw [hu]
    simp

/-- Witness for C9's amended statement at concrete inputs. -/
theorem signup_joindate_assigned_on_repair_witness :
    ((handleSignUp "new@mail.com" "1234" "Ann" "17" [] initialState).state.user.map
      User.joinDate) = some none ∧
    (repairJoinDate { id := "x", email := "x@y.z", pin := "0000", name := "X" }
      "2026-10-12").joinDate = some "2026-10-12" :=
  signup_joindate_assigned_on_repair "new@mail.com" "1234" "Ann" "17" "2026-10-12" []
    initialState { id := "x", email := "x@y.z", pin := "0000", name := "X" }
    (by decide) rfl

/- ### C4 -/

/-- A well-formed persisted settings slice that differs from the defaults. -/
def persistedSettings : AccessibilitySettingsPatch := { voiceSpeed := some (3 / 2) }

/-- C4 counterexample: with a malformed `user` slice and well-formed
`accessibilitySettings` (voiceSpeed 1.5) and `hasCompletedSetup` (true)
slices, rehydration dispatches nothing at all — the state keeps the
default voiceSpeed 1.0 and setup flag `false`, even though loading the
well-formed slices would have changed them.  The failure of one slice is
not isolated to that slice. -/
theorem malformed_user_slice_blocks_later_slices :
    loadDataEffect .malformed (.stored persistedSettings) (.stored true) "now" initialState
      = initialState ∧
    initialState.accessibilitySettings.voiceSpeed = 1 ∧
    initialState.hasCompletedSetup = false ∧
    (mergeSettings initialState.accessibilitySettings persistedSettings).voiceSpeed = 3 / 2 ∧
    (3 / 2 : ℚ) ≠ 1 := by
  refine ⟨rfl, rfl, rfl, rfl, by norm_num⟩

/-- C4 amended: rehydration never fails and a malformed slice is caught by
the single surrounding guard, but the three slices are processed in order
(user, settings, setup flag) under that one guard: a malformed slice
makes that slice and every later slice fall back to its default, while
slices processed before it remain loaded; with all slices well-formed all
three dispatches happen. -/
theorem rehydration_single_guard_aborts_later_slices
    (us : Persisted User) (ss : Persisted AccessibilitySettingsPatch)
    (fs : Persisted Bool) (u : User) (p : AccessibilitySettingsPatch) (b : Bool)
    (now : String) (s : AppState) :
    loadDataEffect .malformed ss fs now s = s ∧
    loadDataEffect us .malformed fs now s = loadDataEffect us .absent .absent now s ∧
    loadDataEffect us ss .malformed now s = loadDataEffect us ss .absent now s ∧
    loadDataEffect (.stored u) (.stored p) (.stored b) now s =
      appReducer (appReducer (appReducer s (.login (repairJoinDate u now)))
        (.updateAccessibilitySettings p)) (.loadData { hasCompletedSetup := some b }) := by
  refine ⟨rfl, ?_, ?_, rfl⟩
  · cases us <;> rfl
  · cases us <;> cases ss <;> rfl

/- ### C7 -/

/-- C7 counterexample: a manipulated image whose base64 string is
1,200,000 characters long passes the guard (estimated decoded size
900,000 bytes) and is handed to the OCR collaborator even though the
base64 string exceeds 1 MB; likewise a 1,048,576-byte file passes
`fileToBase64`'s raw-size check yet encodes to a 1,398,104-character
base64 payload. -/
theorem ocr_base64_can_exceed_one_megabyte :
    prepareImageForOCR 1200000 = .ok 1200000 ∧ 1200000 > 1024 * 1024 ∧
    fileToBase64 1048576 = .ok 1398104 ∧ 1398104 > 1024 * 1024 := by
  refine ⟨?_, by norm_num, ?_, by norm_num⟩
  · unfold prepareImageForOCR BYTE_LIMIT
    rw [if_neg (by norm_num)]
  · unfold fileToBase64 BYTE_LIMIT base64Length
    rw [if_neg (by norm_num)]

/-- C7 amended: the guards bound the *decoded* payload, not the base64
string: whenever the image path reaches the OCR call, the base64 length
`n` satisfies `3 * n ≤ 4 * 2^20` (estimated decoded bytes at most 1 MB),
and images over that estimate are rejected before the call; the file
path rejects files larger than 1 MB before encoding, so its base64
payload is at most `base64Length (1024*1024) = 1398104` characters. -/
theorem ocr_size_guard_bounds (b n sz m : ℕ)
    (h1 : prepareImageForOCR b = .ok n)
    (h2 : fileToBase64 sz = .ok m) :
    n = b ∧ 3 * n ≤ 4 * BYTE_LIMIT ∧ m ≤ base64Length BYTE_LIMIT := by
  unfold prepareImageForOCR at h1
  split_ifs at h1 with hc
  have hb : n = b := by
    have := Except.ok.inj h1
    exact this.symm
  subst hb
  refine ⟨rfl, ?_, ?_⟩
  · push_neg at hc
    have hc4 : (n * 3 : ℚ) ≤ 4 * (BYTE_LIMIT : ℚ) := by linarith
    have : ((3 * n : ℕ) : ℚ) ≤ ((4 * BYTE_LIMIT : ℕ) : ℚ) := by push_cast; linarith
    exact_mod_cast this
  · unfold fileToBase64 at h2
    split_ifs at h2 with hc2
    have hm : m = base64Length sz := (Except.ok.inj h2).symm
    subst hm
    push_neg at hc2
    unfold base64Length
    have : (sz + 2) / 3 ≤ (BYTE_LIMIT + 2) / 3 := Nat.div_le_div_right (by omega)
    omega

/-- Witness for C7's amended statement: a 4-character base64 image payload
and a 3-byte file, both accepted by the guards. -/
theorem ocr_size_guard_bounds_witness :
    (4 : ℕ) = 4 ∧ 3 * 4 ≤ 4 * BYTE_LIMIT ∧ 4 ≤ base64Length BYTE_LIMIT :=
  ocr_size_guard_bounds 4 4 3 4
    (by unfold prepareImageForOCR BYTE_LIMIT; rw [if_neg (by norm_num)])
    (by unfold fileToBase64 BYTE_LIMIT base64Length; rw [if_neg (by norm_num)])
